import Mathlib

/-!
Shallow embedding of the `trasmatech_electricity` Home Assistant integration
(`src/__init__.py`, `src/config_flow.py`, `src/sensor.py`) and proofs of the
specification claims about it.

Conventions of the embedding:
* JSON values decoded from API responses are the inductive `JsonValue`;
  numbers are modelled as rationals.
* Python dictionary access `d[k]` and `round` on non-numbers can raise, so
  the sensor `state` properties are embedded as functions into
  `Except PyError (Option ℚ)`: `.error` is a raised Python exception,
  `.ok none` is Python `None`, `.ok (some q)` is a returned number.
* UTC datetimes are microseconds since the epoch (an `Int`), matching the
  microsecond resolution of `datetime`.
* `round(x, 2)` is `pyRound2`: round half to even at two decimals.
-/

/-- A decoded JSON value (the result of `response.json()`), with numbers as
rationals. -/
inductive JsonValue where
  | null
  | bool (b : Bool)
  | num (q : ℚ)
  | str (s : String)
  | arr (xs : List JsonValue)
  | obj (fields : List (String × JsonValue))

/-- Structural (Python `==`) equality of JSON values. -/
def JsonValue.beq : JsonValue → JsonValue → Bool
  | .null, .null => true
  | .bool a, .bool b => a == b
  | .num a, .num b => a == b
  | .str a, .str b => a == b
  | .arr [], .arr [] => true
  | .arr (x :: xs), .arr (y :: ys) =>
      x.beq y && (JsonValue.arr xs).beq (JsonValue.arr ys)
  | .obj [], .obj [] => true
  | .obj ((k, v) :: fs), .obj ((l, w) :: gs) =>
      k == l && v.beq w && (JsonValue.obj fs).beq (JsonValue.obj gs)
  | _, _ => false

instance : BEq JsonValue := ⟨JsonValue.beq⟩

/-- Python exceptions that the embedded fragments can raise. -/
inductive PyError where
  | keyError (k : String)
  | typeError (msg : String)
  | attributeError (msg : String)
deriving DecidableEq

/-- Python truthiness of a decoded JSON value: `None`, `False`, `0`, `""`,
`[]` and `{}` are falsy. -/
def pyTruthy : JsonValue → Bool
  | .null => false
  | .bool b => b
  | .num q => !(q == 0)
  | .str s => !(s == "")
  | .arr xs => !xs.isEmpty
  | .obj fs => !fs.isEmpty

/-- Association-list lookup on an object's fields (Python dict keys are
unique; first match). `none` when the value is not a dict or lacks the key. -/
def dictFind : JsonValue → String → Option JsonValue
  | .obj fs, k => (fs.find? (fun p => p.1 == k)).map (·.2)
  | _, _ => none

/-- Python `k in d`: key test for dicts, membership for lists, substring for
strings; `TypeError` otherwise. -/
def pyContains : JsonValue → String → Except PyError Bool
  | .obj fs, k => .ok ((dictFind (.obj fs) k).isSome)
  | .arr xs, k => .ok (xs.contains (.str k))
  | .str s, k => .ok (decide (List.IsInfix k.data s.data))
  | _, _ => .error (.typeError "argument of type is not iterable")

/-- Python `d[k]` for a string key: dict lookup raising `KeyError` when the
key is absent, `TypeError` on lists (string index) and other non-dicts. -/
def getItem : JsonValue → String → Except PyError JsonValue
  | .obj fs, k =>
      match dictFind (.obj fs) k with
      | some v => .ok v
      | none => .error (.keyError k)
  | .arr _, _ => .error (.typeError "list indices must be integers or slices, not str")
  | _, _ => .error (.typeError "object is not subscriptable")

/-- Python `d.get(k, default)`: `AttributeError` when the receiver is not a
dict. -/
def dictGet (d : JsonValue) (k : String) (default : JsonValue) :
    Except PyError JsonValue :=
  match d with
  | .obj fs => .ok ((dictFind (.obj fs) k).getD default)
  | _ => .error (.attributeError "object has no attribute get")

/-- The numeric value `round` accepts: numbers, and booleans (`bool` is an
`int` subclass in Python); `TypeError` for everything else. -/
def asNum : JsonValue → Except PyError ℚ
  | .num q => .ok q
  | .bool b => .ok (if b then 1 else 0)
  | _ => .error (.typeError "type does not define round")

/-- Round a rational to the nearest integer, ties to even (Python `round`).
With `f = ⌊x⌋` and `r/den` the fractional part `x - f`, round down when
`r/den < 1/2`, up when `r/den > 1/2`, and to the even neighbour on a tie. -/
def roundHalfEven (x : ℚ) : ℤ :=
  let f : ℤ := x.floor
  let r : ℤ := x.num - f * (x.den : ℤ)
  if 2 * r < (x.den : ℤ) then f
  else if (x.den : ℤ) < 2 * r then f + 1
  else if f % 2 = 0 then f else f + 1

/-- Python `round(x, 2)` on the rational model: round half to even at two
decimal places. -/
def pyRound2 (x : ℚ) : ℚ := (roundHalfEven (x * 100) : ℚ) / 100

/-- Python `str.lower()` (ASCII case mapping suffices for the unit strings
`"W"` and `"kW"` it is applied to). -/
def pyLower (s : String) : String := ⟨s.data.map Char.toLower⟩

/-! ## Coordinator: query window (`sensor.py` lines 37-42) -/

/-- Microseconds in one minute. -/
def usPerMinute : Int := 60000000

/-- `now.replace(second=0, microsecond=0)`: truncate a UTC instant
(microseconds since epoch) to the start of its minute. -/
def truncToMinute (now : Int) : Int := now - now % usPerMinute

/-- `end_time = now.replace(second=0, microsecond=0) - timedelta(minutes=1)`. -/
def end_time (now : Int) : Int := truncToMinute now - usPerMinute

/-- `start_time = end_time - timedelta(minutes=1)`. -/
def start_time (now : Int) : Int := end_time now - usPerMinute

/-! ## Coordinator: request construction and response handling
(`sensor.py` lines 44-63) -/

/-- The coordinator's configuration captured in `TrasMaTechCoordinator.__init__`
(the meter id as rendered into the f-string). -/
structure Config where
  api_url : String
  bearer_token : String
  meter_id : String
deriving DecidableEq

/-- The request URL
`f"{self.api_url}telemetry/{self.meter_id}/{start_date_str}/{end_date_str}/1"`. -/
def buildUrl (c : Config) (start_date_str end_date_str : String) : String :=
  c.api_url ++ "telemetry/" ++ c.meter_id ++ "/" ++ start_date_str ++ "/" ++
    end_date_str ++ "/1"

/-- The request header value `f"Bearer {self.bearer_token}"` for the
`Authorization` key. -/
def authHeader (c : Config) : String := "Bearer " ++ c.bearer_token

/-- Outcome of the HTTP GET as seen by `_async_update_data`: either the
transport raised `aiohttp.ClientError`, or a response with a status code and
a decoded JSON body arrived. -/
inductive FetchResult where
  | clientError (ex : String)
  | response (status : Nat) (data : JsonValue)

/-- The `UpdateFailed` exception raised towards the host. -/
structure UpdateFailed where
  message : String
deriving DecidableEq

/-- `data[0]` on the already-validated body; the guard in `_async_update_data`
ensures the argument is a non-empty list when this is reached. -/
def JsonValue.first : JsonValue → JsonValue
  | .arr (x :: _) => x
  | _ => .null

/-- `isinstance(data, list)`. -/
def JsonValue.isList : JsonValue → Bool
  | .arr _ => true
  | _ => false

/-- `len(data)` for a list body (only evaluated after the `isinstance`
check succeeds). -/
def JsonValue.pyLen : JsonValue → Nat
  | .arr xs => xs.length
  | _ => 0

/-- `TrasMaTechCoordinator._async_update_data`, response-handling part:
status check, body-shape check, and the `aiohttp.ClientError` handler. -/
def _async_update_data (r : FetchResult) : Except UpdateFailed JsonValue :=
  match r with
  | .clientError ex => .error ⟨"API request failed: " ++ ex⟩
  | .response status data =>
      if status ≠ 200 then
        .error ⟨"API request failed: " ++ toString status⟩
      else if ¬ pyTruthy data ∨ ¬ data.isList ∨ data.pyLen = 0 then
        .error ⟨"Empty or invalid API response"⟩
      else
        .ok data.first

/-! ## Sensor projections (`sensor.py` lines 80-86, 104-114, 139-145)

Each `state` property is a function of the coordinator's current snapshot
into `Except PyError (Option ℚ)`: `.ok none` is Python `None`, `.ok (some q)`
a returned number, `.error` a raised exception. -/

/-- `TrasMaTechTotalUsageSensor.state`:
`if data and "cumulativeActivePower" in data:
   return round(data["cumulativeActivePower"]["input"]["max"], 2)`
else `None`. -/
def totalUsageState (data : JsonValue) : Except PyError (Option ℚ) :=
  if pyTruthy data then do
    let c ← pyContains data "cumulativeActivePower"
    if c then do
      let cap ← getItem data "cumulativeActivePower"
      let inp ← getItem cap "input"
      let mx ← getItem inp "max"
      let q ← asNum mx
      pure (some (pyRound2 q))
    else pure none
  else pure none

/-- `TrasMaTechPowerSensor.state` for a sensor built with
`sensor_type` ∈ {min,max,avg} and `unit` ∈ {W,kW}:
`active_power_data = data["activePower"]["input"]`, then
`value = active_power_data.get(self._sensor_type, None)`, then
`round(value / 1000, 2) if self._unit == "kW" else round(value, 2)`. -/
def powerState (data : JsonValue) (sensor_type unit : String) :
    Except PyError (Option ℚ) :=
  if pyTruthy data then do
    let c ← pyContains data "activePower"
    if c then do
      let ap ← getItem data "activePower"
      let active_power_data ← getItem ap "input"
      if pyTruthy active_power_data then do
        let value ← dictGet active_power_data sensor_type .null
        match value with
        | JsonValue.null => pure none
        | v => do
            let q ← asNum v
            pure (some (if unit = "kW" then pyRound2 (q / 1000) else pyRound2 q))
      else pure none
    else pure none
  else pure none

/-- `TrasMaTechPhaseSensor.state` for a sensor built with `phase`,
`measurement` and `value_type`:
`if data and self._phase in data and self._measurement in data[self._phase]:
   return round(data[self._phase][self._measurement].get(self._value_type, 0), 2)`
else `None`. -/
def phaseState (data : JsonValue) (phase measurement value_type : String) :
    Except PyError (Option ℚ) :=
  if pyTruthy data then do
    let c1 ← pyContains data phase
    if c1 then do
      let dp ← getItem data phase
      let c2 ← pyContains dp measurement
      if c2 then do
        let dp' ← getItem data phase
        let dm ← getItem dp' measurement
        let v ← dictGet dm value_type (JsonValue.num 0)
        let q ← asNum v
        pure (some (pyRound2 q))
      else pure none
    else pure none
  else pure none

/-! ## Coordinator state and projection reads (for the frame claim) -/

/-- The mutable state of a `TrasMaTechCoordinator` relevant to the
projections: the current snapshot (`self.data`, `JsonValue.null` models
Python `None` before the first success) and a count of fetches issued. -/
structure Coordinator where
  config : Config
  data : JsonValue
  fetchCount : Nat

/-- Reading `TrasMaTechTotalUsageSensor.state`: the property reads
`self.coordinator.data` and computes; the coordinator is returned as the
post-read state. -/
def readTotalUsage (c : Coordinator) :
    Except PyError (Option ℚ) × Coordinator :=
  (totalUsageState c.data, c)

/-- Reading `TrasMaTechPowerSensor.state`. -/
def readPower (c : Coordinator) (sensor_type unit : String) :
    Except PyError (Option ℚ) × Coordinator :=
  (powerState c.data sensor_type unit, c)

/-- Reading `TrasMaTechPhaseSensor.state`. -/
def readPhase (c : Coordinator) (phase measurement value_type : String) :
    Except PyError (Option ℚ) × Coordinator :=
  (phaseState c.data phase measurement value_type, c)

/-! ## Entity construction (`sensor.py` __init__ methods and lines 165-174) -/

/-- The declarative attributes each sensor's `__init__` registers with the
host. -/
structure SensorEntity where
  unique_id : String
  entity_id : String
  name : String
  unit_of_measurement : String
deriving DecidableEq

/-- `TrasMaTechTotalUsageSensor.__init__` (attribute part). -/
def TrasMaTechTotalUsageSensor (meter_id : String) : SensorEntity :=
  { unique_id := "electricity_meter_" ++ meter_id ++ "_energy_total_usage"
    entity_id := "sensor.electricity_meter_" ++ meter_id ++ "_energy_total_usage"
    name := "Electricity Meter " ++ meter_id ++ " - All Time Total Energy Usage"
    unit_of_measurement := "kWh" }

/-- `TrasMaTechPowerSensor.__init__` (attribute part). -/
def TrasMaTechPowerSensor (meter_id sensor_type unit : String) : SensorEntity :=
  { unique_id := "electricity_meter_" ++ meter_id ++ "_power_" ++ sensor_type
      ++ "_" ++ pyLower unit
    entity_id := "sensor.electricity_meter_" ++ meter_id ++ "_power_"
      ++ sensor_type ++ "_" ++ pyLower unit
    name := "Electricity Meter " ++ meter_id ++ " - Power "
      ++ sensor_type.capitalize ++ " (" ++ unit ++ ")"
    unit_of_measurement := unit }

/-- `TrasMaTechPhaseSensor.__init__` (attribute part). -/
def TrasMaTechPhaseSensor (meter_id phase measurement value_type : String) :
    SensorEntity :=
  { unique_id := "electricity_meter_" ++ meter_id ++ "_" ++ phase ++ "_"
      ++ measurement ++ "_" ++ value_type
    entity_id := "sensor.electricity_meter_" ++ meter_id ++ "_" ++ phase
      ++ "_" ++ measurement ++ "_" ++ value_type
    name := "Electricity Meter " ++ meter_id ++ " - "
      ++ (phase.replace "phase" "Phase ") ++ " " ++ measurement.capitalize
      ++ " " ++ value_type.capitalize
    unit_of_measurement := if measurement = "voltage" then "V" else "A" }

/-- The list passed to `async_add_entities` in `async_setup_entry`
(`sensor.py` lines 165-174). -/
def setupEntities (meter_id : String) : List SensorEntity :=
  [TrasMaTechTotalUsageSensor meter_id,
   TrasMaTechPowerSensor meter_id "min" "W",
   TrasMaTechPowerSensor meter_id "max" "W",
   TrasMaTechPowerSensor meter_id "avg" "W",
   TrasMaTechPowerSensor meter_id "min" "kW",
   TrasMaTechPowerSensor meter_id "max" "kW",
   TrasMaTechPowerSensor meter_id "avg" "kW"] ++
  (["phaseOne", "phaseTwo", "phaseThree"].flatMap (fun phase =>
    ["voltage", "current"].flatMap (fun meas =>
      ["min", "max", "avg"].map (fun val =>
        TrasMaTechPhaseSensor meter_id phase meas val))))

/-- The exception `async_setup_entry` raises when the first refresh fails. -/
inductive SetupError where
  | configEntryNotReady
deriving DecidableEq

/-- `async_setup_entry` (`sensor.py` lines 148-174), parameterized by the
outcome of `coordinator.async_config_entry_first_refresh()`: on
`UpdateFailed` it raises `ConfigEntryNotReady` (registering no entities);
otherwise it registers the 25 sensor entities. -/
def async_setup_entry (meter_id : String)
    (firstRefresh : Except UpdateFailed JsonValue) :
    Except SetupError (List SensorEntity) :=
  match firstRefresh with
  | .error _ => .error .configEntryNotReady
  | .ok _ => .ok (setupEntities meter_id)

/-! ## Configuration wizard (`config_flow.py`) -/

/-- One entry of the provider catalog
(`translations.get("config", {}).get("providers", {})` values with their
`name` and `api_url` fields). -/
structure ProviderInfo where
  name : String
  api_url : String
deriving DecidableEq

/-- The parsed content of `translations/en.json` that `load_providers`
consumes: the provider catalog (insertion-ordered, like a Python dict) and
the `common` translations. -/
structure TranslationFile where
  providers : List (String × ProviderInfo)
  common : List (String × String)

/-- `load_providers`: reading/decoding the translation file either succeeds
with its parsed content or raises one of `FileNotFoundError`, `KeyError`,
`json.JSONDecodeError`, in which case `({}, {})` is returned. -/
def load_providers (file : Except String TranslationFile) :
    List (String × ProviderInfo) × List (String × String) :=
  match file with
  | .ok t => (t.providers, t.common)
  | .error _ => ([], [])

/-- The data the user submits on the form. -/
structure UserInput where
  provider : String
  token : String
  meter_id : Int
deriving DecidableEq

/-- The data stored in the created config entry. -/
structure EntryData where
  api_url : String
  provider : String
  token : String
  meter_id : Int
deriving DecidableEq

/-- The result of a config-flow step: either a form is shown (with its
`errors` dict) or an entry is created. -/
inductive FlowResult where
  | showForm (step_id : String) (errors : List (String × String))
  | createEntry (title : String) (data : EntryData)
deriving DecidableEq

/-- `TrasMaTechElectricityConfigFlow.async_step_user`, parameterized by the
provider catalog returned from `load_providers` and by `user_input`
(`none` on the initial invocation). -/
def async_step_user (providers_data : List (String × ProviderInfo))
    (user_input : Option UserInput) : FlowResult :=
  if providers_data.isEmpty then
    .showForm "user" [("base", "no_providers")]
  else
    let PROVIDERS := providers_data.map (fun p => (p.1, p.2.api_url))
    let PROVIDER_NAMES := providers_data.map (fun p => (p.1, p.2.name))
    if PROVIDERS.isEmpty then
      .showForm "user" [("base", "no_providers")]
    else
      match user_input with
      | some ui =>
          let provider_key := ui.provider
          let api_url :=
            ((PROVIDERS.find? (fun p => p.1 = provider_key)).map (·.2)).getD ""
          .createEntry
            ("TrasMaTech Electricity ("
              ++ ((PROVIDER_NAMES.find? (fun p => p.1 = provider_key)).map
                    (·.2)).getD "Unknown"
              ++ ")")
            { api_url := api_url
              provider := provider_key
              token := ui.token
              meter_id := ui.meter_id }
      | none => .showForm "user" []

/-! ## Derived definitions used by the claims -/

instance {e a : Type} [DecidableEq e] [DecidableEq a] : DecidableEq (Except e a) := fun x y =>
  match x, y with
  | .error u, .error v => if h : u = v then .isTrue (by rw [h]) else .isFalse (by simp [h])
  | .ok u, .ok v => if h : u = v then .isTrue (by rw [h]) else .isFalse (by simp [h])
  | .error _, .ok _ => .isFalse (by simp)
  | .ok _, .error _ => .isFalse (by simp)

/-- The request URL as the specification words it: the base URL followed by
the path segments `telemetry`, meter id, window start, window end and `1`
joined by slashes. Stated independently of `buildUrl` so that the two can be
compared. -/
def specTelemetryUrl (api_url meter_id start_s end_s : String) : String :=
  api_url ++ String.intercalate "/" ["telemetry", meter_id, start_s, end_s, "1"]

/-- A successful dictionary lookup implies the dictionary is non-empty. -/
lemma dictFind_isEmpty_false {fs : List (String × JsonValue)} {k : String}
    {v : JsonValue} (h : dictFind (.obj fs) k = some v) : fs.isEmpty = false := by
  cases fs with
  | nil => simp [dictFind] at h
  | cons a l => rfl

/-- String concatenation is left-cancellative. -/
lemma string_append_left_cancel {a b c : String} (h : a ++ b = a ++ c) : b = c := by
  apply String.ext
  have hd := congrArg String.data h
  simp only [String.data_append] at hd
  exact List.append_cancel_left hd

/-- The common shape of every `unique_id` built in `sensor.py`: the meter
prefix followed by a per-sensor suffix. -/
def uidOf (m s : String) : String := ("electricity_meter_" ++ m ++ "_") ++ s

/-- The common shape of every `entity_id` built in `sensor.py`. -/
def eidOf (m s : String) : String := ("sensor.electricity_meter_" ++ m ++ "_") ++ s

/-- The 25 per-sensor id suffixes, in the order of `setupEntities`. -/
def uidSuffixes : List String :=
  ["energy_total_usage",
   "power_min_w", "power_max_w", "power_avg_w",
   "power_min_kw", "power_max_kw", "power_avg_kw",
   "phaseOne_voltage_min", "phaseOne_voltage_max", "phaseOne_voltage_avg",
   "phaseOne_current_min", "phaseOne_current_max", "phaseOne_current_avg",
   "phaseTwo_voltage_min", "phaseTwo_voltage_max", "phaseTwo_voltage_avg",
   "phaseTwo_current_min", "phaseTwo_current_max", "phaseTwo_current_avg",
   "phaseThree_voltage_min", "phaseThree_voltage_max", "phaseThree_voltage_avg",
   "phaseThree_current_min", "phaseThree_current_max", "phaseThree_current_avg"]

lemma lower_w : pyLower "W" = "w" := by decide

lemma lower_kw : pyLower "kW" = "kw" := by decide

lemma uidOf_inj (m : String) : Function.Injective (uidOf m) := by
  intro s t h
  exact string_append_left_cancel h

lemma eidOf_inj (m : String) : Function.Injective (eidOf m) := by
  intro s t h
  exact string_append_left_cancel h

lemma map_unique_id (m : String) :
    (setupEntities m).map SensorEntity.unique_id = uidSuffixes.map (uidOf m) := by
  simp [setupEntities, TrasMaTechTotalUsageSensor, TrasMaTechPowerSensor,
    TrasMaTechPhaseSensor, uidOf, uidSuffixes, String.append_assoc,
    lower_w, lower_kw]

lemma map_entity_id (m : String) :
    (setupEntities m).map SensorEntity.entity_id = uidSuffixes.map (eidOf m) := by
  simp [setupEntities, TrasMaTechTotalUsageSensor, TrasMaTechPowerSensor,
    TrasMaTechPhaseSensor, eidOf, uidSuffixes, String.append_assoc,
    lower_w, lower_kw]

lemma uidSuffixes_nodup : uidSuffixes.Nodup := by decide

attribute [local semireducible] Rat.mul Rat.inv Rat.add Rat.sub Rat.ofScientific

/-! ## The claims -/

/-- Claim C1: for every UTC instant `now`, the query window computed in
`_async_update_data` is exactly one minute wide and ends at the start of
the minute preceding `now`: `start = trunc(now) - 2min`,
`end = trunc(now) - 1min`, where `trunc(now)` is `now` truncated to the
minute (the unique multiple-of-a-minute instant with
`trunc(now) ≤ now < trunc(now) + 1min`). -/
theorem query_window_one_minute_wide (now : Int) :
    end_time now - start_time now = usPerMinute ∧
    start_time now = truncToMinute now - 2 * usPerMinute ∧
    end_time now = truncToMinute now - usPerMinute ∧
    truncToMinute now % usPerMinute = 0 ∧
    truncToMinute now ≤ now ∧
    now - truncToMinute now < usPerMinute := by
  unfold start_time end_time truncToMinute usPerMinute
  omega

/-- Claim C2: for every configuration and computed window, the GET issued by
`_async_update_data` targets exactly
`{api_url}telemetry/{meter_id}/{start}/{end}/1` (equal to the slash-joined
segment list of the spec) with header value `Bearer {token}`, and a
status-200 response whose body is a non-empty list yields the first list
element as the new snapshot. -/
theorem update_request_url_and_success (c : Config) (s e : String)
    (x : JsonValue) (xs : List JsonValue) :
    buildUrl c s e = specTelemetryUrl c.api_url c.meter_id s e ∧
    authHeader c = "Bearer " ++ c.bearer_token ∧
    _async_update_data (.response 200 (.arr (x :: xs))) = .ok x := by
  refine ⟨?_, rfl, ?_⟩
  · simp [buildUrl, specTelemetryUrl, String.intercalate, String.intercalate.go,
      String.append_assoc]
  · simp [_async_update_data, pyTruthy, JsonValue.isList, JsonValue.pyLen,
      JsonValue.first]

/-- Claim C3: `_async_update_data` classifies every failure as the single
`UpdateFailed` signal (its codomain `Except UpdateFailed JsonValue` admits no
other exception): a transport `ClientError` maps to `UpdateFailed`, a
non-200 status maps to `UpdateFailed` with the status code appearing in the
message (the message text ends with the rendered status), and a non-list or
empty-list body maps to `UpdateFailed`. -/
theorem update_failure_classification :
    (∀ ex, _async_update_data (.clientError ex) =
      .error ⟨"API request failed: " ++ ex⟩) ∧
    (∀ (status : Nat) (body : JsonValue), status ≠ 200 →
      _async_update_data (.response status body) =
        .error ⟨"API request failed: " ++ toString status⟩ ∧
      (toString status).data <:+ ("API request failed: " ++ toString status).data) ∧
    (∀ body : JsonValue, body.isList = false ∨ body = .arr [] →
      _async_update_data (.response 200 body) =
        .error ⟨"Empty or invalid API response"⟩) := by
  refine ⟨fun ex => rfl, fun status body h => ⟨?_, ?_⟩, fun body h => ?_⟩
  · simp [_async_update_data, h]
  · simp only [String.data_append]
    exact List.suffix_append _ _
  · rcases h with h | h
    · simp [_async_update_data, h]
    · subst h
      simp [_async_update_data, pyTruthy, JsonValue.pyLen]

/-- Witness for C3 at concrete inputs: a transport error, a 404 response
with a well-formed body, a 200 response with a dict body, and a 200
response with an empty list body. -/
theorem update_failure_classification_witness :
    _async_update_data (.clientError "Connection reset") =
      .error ⟨"API request failed: " ++ "Connection reset"⟩ ∧
    _async_update_data (.response 404 (.arr [.num 1])) =
      .error ⟨"API request failed: " ++ toString 404⟩ ∧
    _async_update_data (.response 200 (.obj [("a", .num 1)])) =
      .error ⟨"Empty or invalid API response"⟩ ∧
    _async_update_data (.response 200 (.arr [])) =
      .error ⟨"Empty or invalid API response"⟩ :=
  ⟨update_failure_classification.1 "Connection reset",
   (update_failure_classification.2.1 404 (.arr [.num 1]) (by decide)).1,
   update_failure_classification.2.2 (.obj [("a", .num 1)]) (Or.inl rfl),
   update_failure_classification.2.2 (.arr []) (Or.inr rfl)⟩

/-- Claim C4: when the very first refresh fails with `UpdateFailed`,
`async_setup_entry` raises `ConfigEntryNotReady` and registers no sensor
entities. -/
theorem first_refresh_failure_raises_not_ready (m : String) (e : UpdateFailed) :
    async_setup_entry m (.error e) = .error .configEntryNotReady ∧
    ∀ entities : List SensorEntity, async_setup_entry m (.error e) ≠ .ok entities :=
  ⟨rfl, fun _ h => Except.noConfusion h⟩

/-- Counterexample to claim C5 as stated: for the snapshot
`{"cumulativeActivePower": {}}` the key `input` on the path is absent, yet
the projection raises a `KeyError` instead of returning `None`. -/
theorem total_usage_inner_key_raises_counterexample :
    totalUsageState (.obj [("cumulativeActivePower", .obj [])]) =
      .error (.keyError "input") ∧
    totalUsageState (.obj [("cumulativeActivePower", .obj [])]) ≠ .ok none := by
  refine ⟨by decide, by decide⟩

/-- Claim C5 as amended: the total-usage projection returns
`cumulativeActivePower.input.max` rounded to 2 decimals when the full path
is present; it returns `None` when the snapshot is falsy or lacks the
top-level `cumulativeActivePower` key; but when `cumulativeActivePower` is
present and the inner `input` key is absent, it raises a `KeyError` rather
than returning `None` (only the truthiness of the snapshot and the presence
of the top-level key are guarded). -/
theorem total_usage_projection_behaviour :
    (∀ data : JsonValue, pyTruthy data = false → totalUsageState data = .ok none) ∧
    (∀ fs : List (String × JsonValue), fs ≠ [] →
      dictFind (.obj fs) "cumulativeActivePower" = none →
      totalUsageState (.obj fs) = .ok none) ∧
    (∀ fs cfs : List (String × JsonValue),
      dictFind (.obj fs) "cumulativeActivePower" = some (.obj cfs) →
      dictFind (.obj cfs) "input" = none →
      totalUsageState (.obj fs) = .error (.keyError "input")) ∧
    (∀ (fs cfs ifs : List (String × JsonValue)) (q : ℚ),
      dictFind (.obj fs) "cumulativeActivePower" = some (.obj cfs) →
      dictFind (.obj cfs) "input" = some (.obj ifs) →
      dictFind (.obj ifs) "max" = some (.num q) →
      totalUsageState (.obj fs) = .ok (some (pyRound2 q))) := by
  refine ⟨fun data h => ?_, fun fs h0 h1 => ?_, fun fs cfs h1 h2 => ?_,
    fun fs cfs ifs q h1 h2 h3 => ?_⟩
  · simp [totalUsageState, h, pure, Except.pure]
  · simp only [totalUsageState, pyTruthy, pyContains, h1, Option.isSome_none,
      bind, Except.bind, pure, Except.pure]
    simp [h0]
  · have hne := dictFind_isEmpty_false h1
    simp only [totalUsageState, pyTruthy, hne, Bool.not_false, if_true, bind,
      Except.bind, pyContains, h1, Option.isSome_some, getItem, h2]
  · have hne := dictFind_isEmpty_false h1
    simp only [totalUsageState, pyTruthy, hne, Bool.not_false, if_true, bind,
      Except.bind, pyContains, h1, h2, h3, Option.isSome_some, getItem, asNum,
      pure, Except.pure]

/-- Witness for C5 (amended) at concrete inputs: an empty snapshot, a
snapshot without the key, and a snapshot with the full path whose `max`
value 7 rounds to 7. -/
theorem total_usage_projection_behaviour_witness :
    totalUsageState (.obj []) = .ok none ∧
    totalUsageState (.obj [("other", .num 1)]) = .ok none ∧
    totalUsageState
      (.obj [("cumulativeActivePower",
        .obj [("input", .obj [("max", .num 7)])])]) = .ok (some (pyRound2 7)) ∧
    pyRound2 7 = 7 :=
  ⟨total_usage_projection_behaviour.1 (.obj []) rfl,
   total_usage_projection_behaviour.2.1 [("other", .num 1)] (List.cons_ne_nil _ _) rfl,
   total_usage_projection_behaviour.2.2.2
     [("cumulativeActivePower", .obj [("input", .obj [("max", .num 7)])])]
     [("input", .obj [("max", .num 7)])] [("max", .num 7)] 7 rfl rfl rfl,
   by decide⟩

/-- Claim C6: for the snapshot with `activePower.input.max = 1500`, the
(max, kW) power sensor returns `1.5` and the (max, W) power sensor returns
`1500.0`; in general, whenever `activePower.input.<agg>` holds a number `q`,
the power projection returns `q / 1000` rounded to 2 decimals for unit kW
and `q` rounded to 2 decimals otherwise. -/
theorem power_projection_conversion :
    powerState (.obj [("activePower", .obj [("input", .obj [("max", .num 1500)])])])
      "max" "kW" = .ok (some 1.5) ∧
    powerState (.obj [("activePower", .obj [("input", .obj [("max", .num 1500)])])])
      "max" "W" = .ok (some 1500.0) ∧
    (∀ (fs afs ifs : List (String × JsonValue)) (agg unit : String) (q : ℚ),
      dictFind (.obj fs) "activePower" = some (.obj afs) →
      dictFind (.obj afs) "input" = some (.obj ifs) →
      dictFind (.obj ifs) agg = some (.num q) →
      powerState (.obj fs) agg unit =
        .ok (some (if unit = "kW" then pyRound2 (q / 1000) else pyRound2 q))) := by
  refine ⟨by decide, by decide, fun fs afs ifs agg unit q h1 h2 h3 => ?_⟩
  have hne := dictFind_isEmpty_false h1
  have hne3 := dictFind_isEmpty_false h3
  simp only [powerState, pyTruthy, hne, hne3, Bool.not_false, if_true, bind,
    Except.bind, pyContains, h1, h2, h3, Option.isSome_some, getItem, dictGet,
    Option.getD_some, asNum, pure, Except.pure]

/-- Witness for C6 at a concrete input: `activePower.input.min = 500` with
the (min, W) sensor, evaluating to 500. -/
theorem power_projection_conversion_witness :
    powerState (.obj [("activePower", .obj [("input", .obj [("min", .num 500)])])])
      "min" "W" =
      .ok (some (if "W" = "kW" then pyRound2 (500 / 1000) else pyRound2 500)) ∧
    (if ("W" : String) = "kW" then pyRound2 (500 / 1000) else pyRound2 500) = 500 :=
  ⟨power_projection_conversion.2.2
     [("activePower", .obj [("input", .obj [("min", .num 500)])])]
     [("input", .obj [("min", .num 500)])] [("min", .num 500)]
     "min" "W" 500 rfl rfl rfl,
   by decide⟩

/-- Counterexample to claim C7 as stated: for the snapshot
`{"phaseOne": {"voltage": {"avg": 230.456}}}`, the (phaseOne, current, avg)
sensor — whose measurement key is absent — returns `None`, not `0`: the
0 default applies only to a missing aggregation key, while a missing
measurement key fails the guard `self._measurement in data[self._phase]`. -/
theorem phase_current_avg_returns_none_counterexample :
    phaseState (.obj [("phaseOne", .obj [("voltage", .obj [("avg", .num 230.456)])])])
      "phaseOne" "current" "avg" = .ok none ∧
    phaseState (.obj [("phaseOne", .obj [("voltage", .obj [("avg", .num 230.456)])])])
      "phaseOne" "current" "avg" ≠ .ok (some 0) := by
  refine ⟨by decide, by decide⟩

/-- Claim C7 as amended: for the snapshot
`{"phaseOne": {"voltage": {"avg": 230.456}}}`, the (phaseOne, voltage, avg)
sensor returns `230.46` and the (phaseOne, current, avg) sensor returns
`None` (the phase projection returns `None` when the measurement key is
absent; the default of `0` applies only when phase and measurement are
present but the aggregation key is missing). -/
theorem phase_projection_behaviour :
    phaseState (.obj [("phaseOne", .obj [("voltage", .obj [("avg", .num 230.456)])])])
      "phaseOne" "voltage" "avg" = .ok (some 230.46) ∧
    phaseState (.obj [("phaseOne", .obj [("voltage", .obj [("avg", .num 230.456)])])])
      "phaseOne" "current" "avg" = .ok none ∧
    (∀ (fs pfs : List (String × JsonValue)) (phase meas vt : String),
      dictFind (.obj fs) phase = some (.obj pfs) →
      dictFind (.obj pfs) meas = none →
      phaseState (.obj fs) phase meas vt = .ok none) ∧
    (∀ (fs pfs mfs : List (String × JsonValue)) (phase meas vt : String),
      dictFind (.obj fs) phase = some (.obj pfs) →
      dictFind (.obj pfs) meas = some (.obj mfs) →
      dictFind (.obj mfs) vt = none →
      phaseState (.obj fs) phase meas vt = .ok (some (pyRound2 0))) := by
  refine ⟨by decide, by decide, fun fs pfs phase meas vt h1 h2 => ?_,
    fun fs pfs mfs phase meas vt h1 h2 h3 => ?_⟩
  · have hne := dictFind_isEmpty_false h1
    simp only [phaseState, pyTruthy, hne, Bool.not_false, if_true, bind,
      Except.bind, pyContains, h1, h2, Option.isSome_some, Option.isSome_none,
      getItem, pure, Except.pure]
    simp
  · have hne := dictFind_isEmpty_false h1
    simp only [phaseState, pyTruthy, hne, Bool.not_false, if_true, bind,
      Except.bind, pyContains, h1, h2, h3, Option.isSome_some, getItem, dictGet,
      Option.getD_none, asNum, pure, Except.pure]

/-- Witness for C7 (amended) at concrete inputs: a missing measurement key
yields `None`; a present measurement dict with a missing aggregation key
yields the rounded default 0. -/
theorem phase_projection_behaviour_witness :
    phaseState (.obj [("phaseTwo", .obj [("current", .obj [])])])
      "phaseTwo" "voltage" "min" = .ok none ∧
    phaseState (.obj [("phaseTwo", .obj [("current", .obj [])])])
      "phaseTwo" "current" "min" = .ok (some (pyRound2 0)) ∧
    pyRound2 0 = 0 :=
  ⟨phase_projection_behaviour.2.2.1
     [("phaseTwo", .obj [("current", .obj [])])] [("current", .obj [])]
     "phaseTwo" "voltage" "min" rfl rfl,
   phase_projection_behaviour.2.2.2
     [("phaseTwo", .obj [("current", .obj [])])] [("current", .obj [])] []
     "phaseTwo" "current" "min" rfl rfl rfl,
   by decide⟩

/-- Claim C8: whenever the provider catalog cannot be loaded (so
`load_providers` returns the empty dict) or is empty, `async_step_user`
always shows the form with the `no_providers` error — and in particular
never produces a created entry — regardless of the user input. -/
theorem empty_provider_catalog_shows_error (err : String) (ui : Option UserInput) :
    async_step_user [] ui = .showForm "user" [("base", "no_providers")] ∧
    async_step_user (load_providers (.error err)).1 ui =
      .showForm "user" [("base", "no_providers")] ∧
    ∀ (title : String) (data : EntryData),
      async_step_user [] ui ≠ .createEntry title data :=
  ⟨rfl, rfl, fun _ _ h => FlowResult.noConfusion h⟩

/-- Claim C9: reading the state of any of the three projections returns the
coordinator unchanged — the snapshot it holds is identical before and after
the read, and the number of fetches issued is unchanged (no projection read
performs a fetch). -/
theorem projection_reads_leave_coordinator_unchanged (c : Coordinator)
    (sensor_type unit phase meas vt : String) :
    (readTotalUsage c).2 = c ∧
    (readPower c sensor_type unit).2 = c ∧
    (readPhase c phase meas vt).2 = c ∧
    (readTotalUsage c).2.data = c.data ∧
    (readPower c sensor_type unit).2.data = c.data ∧
    (readPhase c phase meas vt).2.data = c.data ∧
    (readTotalUsage c).2.fetchCount = c.fetchCount ∧
    (readPower c sensor_type unit).2.fetchCount = c.fetchCount ∧
    (readPhase c phase meas vt).2.fetchCount = c.fetchCount :=
  ⟨rfl, rfl, rfl, rfl, rfl, rfl, rfl, rfl, rfl⟩

/-- Claim C10: for every meter id, the 25 sensor entities created by
`async_setup_entry` (1 total-usage, 6 power, 18 phase) have pairwise
distinct `unique_id` values and pairwise distinct `entity_id` values. -/
theorem setup_entities_ids_distinct (m : String) :
    ((setupEntities m).map SensorEntity.unique_id).Nodup ∧
    ((setupEntities m).map SensorEntity.entity_id).Nodup ∧
    (setupEntities m).length = 25 := by
  refine ⟨?_, ?_, rfl⟩
  · rw [map_unique_id]
    exact uidSuffixes_nodup.map (uidOf_inj m)
  · rw [map_entity_id]
    exact uidSuffixes_nodup.map (eidOf_inj m)
